import Mathlib

/-!
Verification of the SwiftShip ETL transformation core
(`swiftship_etl_pipeline(day 14)/transform.py`).

The pandas DataFrame pipeline is shallowly embedded as Lean functions over
lists of records.  Numeric (float64) cell values are modelled by `PVal`:
a finite rational, positive or negative infinity, or NaN (pandas' missing
value marker for numeric columns).  The arithmetic on `PVal` follows IEEE-754
semantics to the extent the pipeline exercises it (the pipeline never rounds,
so rationals are exact stand-ins for the finite doubles it produces):
`x / 0 = ±inf` for nonzero finite `x`, `0 / 0 = NaN`, and NaN propagates
through every operation.

Timestamps are modelled, post-parsing, as `Option ℚ` (seconds since an
epoch): `none` is `NaT`, the result of `pd.to_datetime(..., errors="coerce")`
on a missing or unparsable field.
-/

set_option autoImplicit false

namespace SwiftShip

/-- A pandas float64 cell: a finite rational, an infinity, or NaN. -/
inductive PVal where
  | num : ℚ → PVal
  | pinf : PVal
  | ninf : PVal
  | nan : PVal
  deriving Repr, DecidableEq

namespace PVal

/-- IEEE-style addition on `PVal`: NaN propagates, `+inf + -inf = NaN`. -/
def add : PVal → PVal → PVal
  | num a, num b => num (a + b)
  | nan, _ => nan
  | _, nan => nan
  | pinf, ninf => nan
  | ninf, pinf => nan
  | pinf, _ => pinf
  | _, pinf => pinf
  | ninf, _ => ninf
  | _, ninf => ninf

/-- IEEE-style multiplication on `PVal`: NaN propagates, `±inf × 0 = NaN`. -/
def mul : PVal → PVal → PVal
  | num a, num b => num (a * b)
  | nan, _ => nan
  | _, nan => nan
  | pinf, pinf => pinf
  | pinf, ninf => ninf
  | ninf, pinf => ninf
  | ninf, ninf => pinf
  | pinf, num b => if 0 < b then pinf else if b < 0 then ninf else nan
  | num a, pinf => if 0 < a then pinf else if a < 0 then ninf else nan
  | ninf, num b => if 0 < b then ninf else if b < 0 then pinf else nan
  | num a, ninf => if 0 < a then ninf else if a < 0 then pinf else nan

/-- IEEE-style division on `PVal`: a nonzero finite value divided by zero is a
signed infinity, `0 / 0 = NaN`, NaN propagates, finite over infinite is 0. -/
def div : PVal → PVal → PVal
  | num a, num b =>
      if b = 0 then (if 0 < a then pinf else if a < 0 then ninf else nan)
      else num (a / b)
  | nan, _ => nan
  | _, nan => nan
  | num _, pinf => num 0
  | num _, ninf => num 0
  | pinf, num b => if b < 0 then ninf else pinf
  | ninf, num b => if b < 0 then pinf else ninf
  | pinf, pinf => nan
  | pinf, ninf => nan
  | ninf, pinf => nan
  | ninf, ninf => nan

end PVal

/-- Embedding of `Series.fillna(0)` applied cell-wise: NaN becomes 0. -/
def fillna0 : PVal → PVal
  | .nan => .num 0
  | v => v

/-- Embedding of `Series.replace(0, 1)` applied cell-wise: a cell equal to 0
becomes 1; all other cells, NaN included, are untouched. -/
def replace01 (v : PVal) : PVal :=
  if v = .num 0 then .num 1 else v

/-- Cell-level semantics of `pd.cut(x, bins=[-inf, c1, ..., ck, inf], labels)`
with the default right-closed intervals, given the finite interior cutpoints
`[c1, ..., ck]` and the `k+1` labels.  A finite value is assigned the label of
the first interval `(c_i, c_{i+1}]` containing it; `+inf` lies in the last
interval `(ck, inf]`; `-inf` lies in no interval (the first one is left-open),
and NaN is never binned — both yield `none`, pandas' NaN category. -/
def pdCutNum {α : Type} (q : ℚ) : List ℚ → List α → Option α
  | [], l :: _ => some l
  | c :: cs, l :: ls => if q ≤ c then some l else pdCutNum q cs ls
  | _, [] => none

/-- Extension of `pdCutNum` to the full cell domain, per the convention just
described for the infinities and NaN. -/
def pdCut {α : Type} (x : PVal) (cuts : List ℚ) (labels : List α) : Option α :=
  match x with
  | .nan => none
  | .ninf => none
  | .pinf => labels.getLast?
  | .num q => pdCutNum q cuts labels

/-- A raw delivery row after timestamp coercion: the three timestamp columns
hold either a parsed timestamp (in seconds) or the NaT marker `none`; the
`package_weight` cell is a float that may be NaN. -/
structure RawDelivery where
  shipment_id : String
  source_city : String
  destination_city : String
  dispatch_time : Option ℚ
  expected_delivery_time : Option ℚ
  actual_delivery_time : Option ℚ
  package_weight : PVal
  deriving Repr, DecidableEq

/-- A raw delivery table as loaded from disk: `hasWeightCol` records whether
the `package_weight` column is present at all (`df.get` distinguishes a
missing column from NaN cells in a present column). -/
structure RawDeliveryTable where
  hasWeightCol : Bool
  rows : List RawDelivery
  deriving Repr, DecidableEq

/-- A delivery row surviving `clean_delivery_data`: `delay_minutes` is the
defined (finite) delay and `package_weight_kg` the copied-or-defaulted
weight cell. -/
structure CleanedRow where
  raw : RawDelivery
  delay_minutes : ℚ
  package_weight_kg : PVal
  deriving Repr, DecidableEq

/-- A cleaned row extended with the `delay_class` column of `classify_delay`
(`none` would be pandas' NaN category). -/
structure ClassifiedRow where
  base : CleanedRow
  delay_class : Option String
  deriving Repr, DecidableEq

/-- A classified row extended with the `agent_score` column of
`compute_agent_score`. -/
structure ScoredRow where
  base : CleanedRow
  delay_class : Option String
  agent_score : Option ℤ
  deriving Repr, DecidableEq

/-- A traffic row: `city` is the join key; congestion and speed are float
cells (NaN possible); `weather_warning` is optional text. -/
structure TrafficRow where
  city : String
  traffic_congestion_score : PVal
  avg_speed : PVal
  weather_warning : Option String
  deriving Repr, DecidableEq

/-- A delivery row after the double left merge of `merge_with_traffic`:
`src` (resp. `dst`) is the traffic row matched on the source (resp.
destination) city, or `none` when that side had no match, in which case all
the suffixed traffic columns read as the no-value marker. -/
structure MergedRow where
  scored : ScoredRow
  src : Option TrafficRow
  dst : Option TrafficRow
  deriving Repr, DecidableEq

/-- A merged row extended with the four columns added by
`feature_engineering`. -/
structure FinalRow where
  merged : MergedRow
  traffic_impact_score : PVal
  traffic_risk_level : Option String
  delivery_efficiency_index : PVal
  predicted_delay_risk_level : Option String
  deriving Repr, DecidableEq

/-- Embedding of `load_latest_file`: the input list holds the matching files
sorted latest-first; an empty list raises `FileNotFoundError`, otherwise the
first (latest) file is loaded. -/
def load_latest_file {α : Type} (files : List α) (keyword : String) :
    Except String α :=
  match files with
  | [] => .error ("No files found for " ++ keyword)
  | f :: _ => .ok f

/-- Embedding of `clean_delivery_data`.  The delay column is
`(actual_delivery_time - expected_delivery_time).dt.total_seconds() / 60`,
which is NaT-propagating: it is defined exactly when both timestamps are.
Rows with a null delay are dropped; `package_weight_kg` is
`df.get("package_weight", 0)`: the weight column itself when present, the
scalar 0 broadcast to every row when the column is absent. -/
def clean_delivery_data (hasWeightCol : Bool) (rows : List RawDelivery) :
    List CleanedRow :=
  rows.filterMap fun r =>
    match r.actual_delivery_time, r.expected_delivery_time with
    | some a, some e =>
        some { raw := r
               delay_minutes := (a - e) / 60
               package_weight_kg :=
                 if hasWeightCol then r.package_weight else .num 0 }
    | _, _ => none

/-- Cell-level delay classification of `classify_delay`:
`pd.cut(delay, bins=[-inf, 0, 60, 180, inf])`. -/
def delayClass (d : PVal) : Option String :=
  pdCut d [0, 60, 180] ["On-Time", "Slight Delay", "Major Delay", "Critical Delay"]

/-- Embedding of `classify_delay`: adds the `delay_class` column. -/
def classify_delay (rows : List CleanedRow) : List ClassifiedRow :=
  rows.map fun r => { base := r, delay_class := delayClass (.num r.delay_minutes) }

/-- Cell-level agent score of `compute_agent_score`:
`pd.cut(delay, bins=[-inf, 0, 30, 60, 180, inf], labels=[5,4,3,2,1])`. -/
def agentScore (d : PVal) : Option ℤ :=
  pdCut d [0, 30, 60, 180] ([5, 4, 3, 2, 1] : List ℤ)

/-- Embedding of `compute_agent_score`: adds the `agent_score` column. -/
def compute_agent_score (rows : List ClassifiedRow) : List ScoredRow :=
  rows.map fun r =>
    { base := r.base
      delay_class := r.delay_class
      agent_score := agentScore (.num r.base.delay_minutes) }

/-- The matches a single left-merge key produces for one left row: every
traffic row whose `city` equals the key, in table order; when none matches,
the single all-NaN padding row `none` (pandas' left-join behaviour). -/
def leftMatches (traffic : List TrafficRow) (c : String) :
    List (Option TrafficRow) :=
  match traffic.filter (fun t => t.city = c) with
  | [] => [none]
  | ms => ms.map some

/-- Embedding of `merge_with_traffic`: two successive left merges of the
delivery table with the traffic table, first on
`source_city = city`, then on `destination_city = city`.  Each merge keeps
every left row, pairing it with every matching traffic row (fan-out when a
city occurs several times) or with the NaN padding when none matches. -/
def merge_with_traffic (ds : List ScoredRow) (traffic : List TrafficRow) :
    List MergedRow :=
  (ds.flatMap fun r =>
      (leftMatches traffic r.base.raw.source_city).map fun o => (r, o)).flatMap
    fun p =>
      (leftMatches traffic p.1.base.raw.destination_city).map fun o =>
        { scored := p.1, src := p.2, dst := o }

/-- The suffixed congestion cell a merged row sees on one side: the matched
traffic row's cell, or NaN when that side had no match. -/
def sideCongestion (t : Option TrafficRow) : PVal :=
  match t with
  | some tr => tr.traffic_congestion_score
  | none => .nan

/-- The suffixed average-speed cell a merged row sees on one side: the matched
traffic row's cell, or NaN when that side had no match. -/
def sideSpeed (t : Option TrafficRow) : PVal :=
  match t with
  | some tr => tr.avg_speed
  | none => .nan

/-- Cell-level traffic impact score of `feature_engineering`:
`(congestion_source.fillna(0) / avg_speed_source.replace(0,1)
  + congestion_dest.fillna(0) / avg_speed_dest.replace(0,1)) * 10`. -/
def trafficImpactScore (cs vs cd vd : PVal) : PVal :=
  PVal.mul
    (PVal.add (PVal.div (fillna0 cs) (replace01 vs))
              (PVal.div (fillna0 cd) (replace01 vd)))
    (.num 10)

/-- The `agent_score` cell as the float it is coerced to in the efficiency
product (`none`, impossible for rows with a defined delay, reads as NaN). -/
def scoreCell (s : Option ℤ) : PVal :=
  match s with
  | some z => .num (z : ℚ)
  | none => .nan

/-- Cell-level delivery efficiency index of `feature_engineering`:
`package_weight_kg / (delay_minutes + 1) * agent_score`. -/
def deliveryEfficiencyIndex (w : PVal) (d : ℚ) (s : Option ℤ) : PVal :=
  PVal.mul (PVal.div w (.num (d + 1))) (scoreCell s)

/-- Row-level body of `feature_engineering`: the four derived columns. -/
def featureRow (m : MergedRow) : FinalRow :=
  let tis := trafficImpactScore (sideCongestion m.src) (sideSpeed m.src)
      (sideCongestion m.dst) (sideSpeed m.dst)
  let dei := deliveryEfficiencyIndex m.scored.base.package_weight_kg
      m.scored.base.delay_minutes m.scored.agent_score
  { merged := m
    traffic_impact_score := tis
    traffic_risk_level := pdCut tis [7, 15] ["Low Risk", "Moderate Risk", "High Risk"]
    delivery_efficiency_index := dei
    predicted_delay_risk_level := pdCut dei [5, 15] ["High Risk", "Moderate Risk", "Low Risk"] }

/-- Embedding of `feature_engineering`: adds the four derived columns to
every row; no row is added or dropped. -/
def feature_engineering (rows : List MergedRow) : List FinalRow :=
  rows.map featureRow

/-- Embedding of `transform_pipeline`: load the latest delivery and traffic
files (a missing file for either source raises before any transformation),
then run the five stages in order.  An `.ok` result models the written
output artifact; an `.error` models the aborted run with nothing written. -/
def transform_pipeline (deliveryFiles : List RawDeliveryTable)
    (trafficFiles : List (List TrafficRow)) : Except String (List FinalRow) :=
  match load_latest_file deliveryFiles "live_delivery" with
  | .error e => .error e
  | .ok dt =>
    match load_latest_file trafficFiles "route_traffic" with
    | .error e => .error e
    | .ok tf =>
      .ok (feature_engineering
        (merge_with_traffic
          (compute_agent_score (classify_delay
            (clean_delivery_data dt.hasWeightCol dt.rows)))
          tf))

/-! ### Shared helper lemmas -/

/-- Filling an NaN cell yields 0. -/
@[simp] lemma fillna0_nan : fillna0 .nan = .num 0 := rfl

/-- Filling a finite cell leaves it unchanged. -/
@[simp] lemma fillna0_num (q : ℚ) : fillna0 (.num q) = .num q := rfl

/-- Replacing on an NaN cell leaves it NaN. -/
@[simp] lemma replace01_nan : replace01 .nan = .nan := by
  rw [replace01, if_neg]; intro h; cases h

/-- Replacing on the zero cell yields 1. -/
@[simp] lemma replace01_zero : replace01 (.num 0) = .num 1 := rfl

/-- Replacing on a nonzero finite cell leaves it unchanged. -/
@[simp] lemma replace01_num (q : ℚ) (h : q ≠ 0) :
    replace01 (.num q) = .num q := by
  rw [replace01, if_neg]; intro hc; exact h (PVal.num.inj hc)

/-- NaN propagates through division (left). -/
@[simp] lemma PVal.div_nan_left (x : PVal) : PVal.div .nan x = .nan := by
  cases x <;> rfl

/-- NaN propagates through division (right). -/
@[simp] lemma PVal.div_nan_right (x : PVal) : PVal.div x .nan = .nan := by
  cases x <;> rfl

/-- Finite-over-finite division with a nonzero denominator is exact. -/
@[simp] lemma PVal.div_num (a b : ℚ) (hb : b ≠ 0) :
    PVal.div (.num a) (.num b) = .num (a / b) := by
  simp [PVal.div, hb]

/-- A positive finite cell divided by the zero cell is positive infinity. -/
@[simp] lemma PVal.div_num_zero_pos (a : ℚ) (ha : 0 < a) :
    PVal.div (.num a) (.num 0) = .pinf := by
  simp [PVal.div, ha]

/-- NaN propagates through addition (left). -/
@[simp] lemma PVal.add_nan_left (x : PVal) : PVal.add .nan x = .nan := by
  cases x <;> rfl

/-- NaN propagates through addition (right). -/
@[simp] lemma PVal.add_nan_right (x : PVal) : PVal.add x .nan = .nan := by
  cases x <;> rfl

/-- Addition of two finite cells is exact. -/
@[simp] lemma PVal.add_num (a b : ℚ) :
    PVal.add (.num a) (.num b) = .num (a + b) := rfl

/-- NaN propagates through multiplication (left). -/
@[simp] lemma PVal.mul_nan_left (x : PVal) : PVal.mul .nan x = .nan := by
  cases x <;> rfl

/-- NaN propagates through multiplication (right). -/
@[simp] lemma PVal.mul_nan_right (x : PVal) : PVal.mul x .nan = .nan := by
  cases x <;> rfl

/-- Multiplication of two finite cells is exact. -/
@[simp] lemma PVal.mul_num (a b : ℚ) :
    PVal.mul (.num a) (.num b) = .num (a * b) := rfl

/-- Positive infinity times a positive finite cell is positive infinity. -/
@[simp] lemma PVal.mul_pinf_num_pos (b : ℚ) (hb : 0 < b) :
    PVal.mul .pinf (.num b) = .pinf := by
  simp [PVal.mul, hb]

/-- Binning an NaN cell yields the NaN category. -/
@[simp] lemma pdCut_nan {α : Type} (cuts : List ℚ) (labels : List α) :
    pdCut .nan cuts labels = none := rfl

/-- Binning positive infinity yields the last (open-ended) band. -/
@[simp] lemma pdCut_pinf {α : Type} (cuts : List ℚ) (labels : List α) :
    pdCut .pinf cuts labels = labels.getLast? := rfl

/-- Binning a finite cell scans the cutpoints in order. -/
@[simp] lemma pdCut_num {α : Type} (q : ℚ) (cuts : List ℚ) (labels : List α) :
    pdCut (.num q) cuts labels = pdCutNum q cuts labels := rfl

/-- The score cell of a defined integer score. -/
@[simp] lemma scoreCell_some (z : ℤ) : scoreCell (some z) = .num (z : ℚ) := rfl

/-- The congestion cell of a matched side. -/
@[simp] lemma sideCongestion_some (t : TrafficRow) :
    sideCongestion (some t) = t.traffic_congestion_score := rfl

/-- The congestion cell of an unmatched side is NaN. -/
@[simp] lemma sideCongestion_none : sideCongestion none = .nan := rfl

/-- The speed cell of a matched side. -/
@[simp] lemma sideSpeed_some (t : TrafficRow) :
    sideSpeed (some t) = t.avg_speed := rfl

/-- The speed cell of an unmatched side is NaN. -/
@[simp] lemma sideSpeed_none : sideSpeed none = .nan := rfl

/-- Every row surviving `clean_delivery_data` records two present timestamps,
and its delay is their difference in minutes. -/
lemma clean_mem_spec (b : Bool) (rows : List RawDelivery) (c : CleanedRow)
    (hc : c ∈ clean_delivery_data b rows) :
    ∃ a e, c.raw.actual_delivery_time = some a ∧
      c.raw.expected_delivery_time = some e ∧
      c.delay_minutes = (a - e) / 60 := by
  simp only [clean_delivery_data, List.mem_filterMap] at hc
  obtain ⟨r, _, heq⟩ := hc
  cases hA : r.actual_delivery_time with
  | none => rw [hA] at heq; simp at heq
  | some a =>
    cases hE : r.expected_delivery_time with
    | none => rw [hA, hE] at heq; simp at heq
    | some e =>
      rw [hA, hE] at heq
      simp only [Option.some.injEq] at heq
      exact ⟨a, e, by rw [← heq]; exact hA, by rw [← heq]; exact hE, by rw [← heq]⟩

/-- Membership through `compute_agent_score ∘ classify_delay`: the underlying
cleaned row of a scored row is one of the cleaned inputs. -/
lemma scored_base_mem (cleaned : List CleanedRow) (s : ScoredRow)
    (hs : s ∈ compute_agent_score (classify_delay cleaned)) :
    s.base ∈ cleaned := by
  simp only [compute_agent_score, classify_delay, List.map_map, List.mem_map,
    Function.comp] at hs
  obtain ⟨c, hc, rfl⟩ := hs
  exact hc

/-- Membership through the double left merge: the scored component of any
merged row is one of the scored inputs. -/
lemma merge_scored_mem (ds : List ScoredRow) (tf : List TrafficRow)
    (m : MergedRow) (hm : m ∈ merge_with_traffic ds tf) :
    m.scored ∈ ds := by
  simp only [merge_with_traffic, List.mem_flatMap, List.mem_map] at hm
  obtain ⟨p, hp, o, _, rfl⟩ := hm
  obtain ⟨r, hr, o1, _, rfl⟩ := hp
  exact hr

/-- A `flatMap` whose blocks all have one element preserves length. -/
lemma flatMap_length_one {α β : Type} (l : List α) (f : α → List β)
    (h : ∀ a ∈ l, (f a).length = 1) : (l.flatMap f).length = l.length := by
  induction l with
  | nil => rfl
  | cons a l ih =>
    rw [List.flatMap_cons, List.length_append, h a (List.mem_cons_self a l),
      ih (fun x hx => h x (List.mem_cons_of_mem a hx)), List.length_cons]
    omega

/-- When a key matches at most one traffic row, a left-merge key produces
exactly one output row. -/
lemma leftMatches_length (tf : List TrafficRow) (c : String)
    (h : (tf.filter (fun t => t.city = c)).length ≤ 1) :
    (leftMatches tf c).length = 1 := by
  unfold leftMatches
  cases hf : tf.filter (fun t => t.city = c) with
  | nil => rfl
  | cons t ms =>
    cases ms with
    | nil => rfl
    | cons t' ms' => rw [hf] at h; simp at h

/-- Three-label binning of a finite value always yields a label. -/
lemma pdCut_three_some {α : Type} (q a b : ℚ) (l1 l2 l3 : α) :
    ∃ l, pdCut (.num q) [a, b] [l1, l2, l3] = some l := by
  unfold pdCut pdCutNum
  by_cases h1 : q ≤ a
  · exact ⟨l1, by simp [h1]⟩
  · by_cases h2 : q ≤ b
    · exact ⟨l2, by simp [h1, h2, pdCutNum]⟩
    · exact ⟨l3, by simp [h1, h2, pdCutNum]⟩

/-! ### Claims -/

/-- Claim C1: the delay classification and agent score bins are
right-closed (boundary-inclusive-low): a delay of exactly 0 is "On-Time"
with score 5, exactly 30 scores 4, exactly 60 is "Slight Delay" with
score 3, and exactly 180 is "Major Delay" with score 2 — each boundary
value falls in the lower band. -/
theorem C1_boundary_bins :
    delayClass (.num 0) = some "On-Time" ∧ agentScore (.num 0) = some 5 ∧
    agentScore (.num 30) = some 4 ∧
    delayClass (.num 60) = some "Slight Delay" ∧ agentScore (.num 60) = some 3 ∧
    delayClass (.num 180) = some "Major Delay" ∧ agentScore (.num 180) = some 2 := by
  decide

/-- Claim C7: when no raw file exists for the delivery source or for the
traffic source, the run fails with an error (the `Except.error` models the
`FileNotFoundError` abort) and no output artifact is produced — the result
is never `Except.ok`. -/
theorem C7_missing_source_fatal (dfs : List RawDeliveryTable)
    (tfs : List (List TrafficRow)) (h : dfs = [] ∨ tfs = []) :
    ∃ e, transform_pipeline dfs tfs = .error e := by
  rcases h with h | h
  · subst h; exact ⟨_, rfl⟩
  · subst h
    cases dfs with
    | nil => exact ⟨_, rfl⟩
    | cons d ds => exact ⟨_, rfl⟩

/-- Witness for C7 at the empty file lists. -/
theorem C7_missing_source_fatal_witness :
    ∃ e, transform_pipeline [] [] = .error e :=
  C7_missing_source_fatal [] [] (Or.inl rfl)

/-- Claim C8: when every delivery row lacks one of the two timestamps that
define the delay, the delay filter empties the table, every later stage
accepts the empty table, and the run completes normally with an output
artifact holding zero data rows. -/
theorem C8_empty_table_completes (b : Bool) (rows : List RawDelivery)
    (dts : List RawDeliveryTable) (tf : List TrafficRow)
    (tfs : List (List TrafficRow))
    (h : ∀ r ∈ rows, r.actual_delivery_time = none ∨
      r.expected_delivery_time = none) :
    transform_pipeline (⟨b, rows⟩ :: dts) (tf :: tfs) = .ok [] := by
  have hclean : clean_delivery_data b rows = [] := by
    rw [clean_delivery_data, List.filterMap_eq_nil_iff]
    intro r hr
    rcases h r hr with ha | he
    · rw [ha]
    · rw [he]
      cases r.actual_delivery_time <;> rfl
  simp [transform_pipeline, load_latest_file, hclean, classify_delay,
    compute_agent_score, merge_with_traffic, feature_engineering]

/-- Fixture: a delivery row whose actual-delivery timestamp is absent. -/
def rNoActual : RawDelivery :=
  { shipment_id := "SH001", source_city := "Hyderabad"
    destination_city := "Mumbai", dispatch_time := some 0
    expected_delivery_time := some 0, actual_delivery_time := none
    package_weight := .num (71/5) }

/-- Witness for C8: one undeliverable row empties the table and the run
still emits an empty artifact. -/
theorem C8_empty_table_completes_witness :
    transform_pipeline [⟨true, [rNoActual]⟩] [[]] = .ok [] :=
  C8_empty_table_completes true [rNoActual] [] [] []
    (by intro r hr; simp only [List.mem_singleton] at hr; subst hr; left; rfl)

/-- Claim C2: every row of the final output artifact has both an actual and
an expected delivery timestamp present, and its `delay_minutes` is their
signed fractional difference in minutes; contrapositively a row whose
actual-delivery (or expected-delivery) timestamp is the no-value marker is
filtered by the delay stage and never appears in the output. -/
theorem C2_delay_and_filter (b : Bool) (rows : List RawDelivery)
    (dts : List RawDeliveryTable) (tf : List TrafficRow)
    (tfs : List (List TrafficRow)) (out : List FinalRow)
    (h : transform_pipeline (⟨b, rows⟩ :: dts) (tf :: tfs) = .ok out)
    (fr : FinalRow) (hfr : fr ∈ out) :
    ∃ a e, fr.merged.scored.base.raw.actual_delivery_time = some a ∧
      fr.merged.scored.base.raw.expected_delivery_time = some e ∧
      fr.merged.scored.base.delay_minutes = (a - e) / 60 := by
  have hout : out = feature_engineering
      (merge_with_traffic
        (compute_agent_score (classify_delay (clean_delivery_data b rows)))
        tf) := by
    simp only [transform_pipeline, load_latest_file, Except.ok.injEq] at h
    exact h.symm
  rw [hout] at hfr
  simp only [feature_engineering, List.mem_map] at hfr
  obtain ⟨m, hm, rfl⟩ := hfr
  have hms := merge_scored_mem _ tf m hm
  have hbase := scored_base_mem _ _ hms
  obtain ⟨a, e, h1, h2, h3⟩ := clean_mem_spec b rows _ hbase
  refine ⟨a, e, ?_, ?_, ?_⟩
  · simpa [featureRow] using h1
  · simpa [featureRow] using h2
  · simpa [featureRow] using h3

/-- Fixture: a delivered row (expected at 0 s, actual at 3600 s: delay 60). -/
def rDelivered : RawDelivery :=
  { shipment_id := "SH002", source_city := "Delhi"
    destination_city := "Bangalore", dispatch_time := some 0
    expected_delivery_time := some 0, actual_delivery_time := some 3600
    package_weight := .num 2 }

/-- Fixture: the enriched row the pipeline produces from `rDelivered` when
the traffic table is empty. -/
def frDelivered : FinalRow :=
  { merged :=
      { scored :=
          { base := { raw := rDelivered, delay_minutes := 60
                      package_weight_kg := .num 2 }
            delay_class := some "Slight Delay"
            agent_score := some 3 }
        src := none
        dst := none }
    traffic_impact_score := .nan
    traffic_risk_level := none
    delivery_efficiency_index := .num (6/61)
    predicted_delay_risk_level := some "High Risk" }

/-- Witness for C2: a run over one undelivered and one delivered row keeps
only the delivered one, whose delay is the timestamp difference in minutes. -/
theorem C2_delay_and_filter_witness :
    ∃ a e, frDelivered.merged.scored.base.raw.actual_delivery_time = some a ∧
      frDelivered.merged.scored.base.raw.expected_delivery_time = some e ∧
      frDelivered.merged.scored.base.delay_minutes = (a - e) / 60 :=
  C2_delay_and_filter true [rNoActual, rDelivered] [] [] [] [frDelivered]
    (by norm_num [transform_pipeline, load_latest_file, clean_delivery_data,
      classify_delay, compute_agent_score, merge_with_traffic, leftMatches,
      feature_engineering, featureRow, delayClass, agentScore, pdCutNum,
      trafficImpactScore, deliveryEfficiencyIndex,
      rNoActual, rDelivered, frDelivered, List.filterMap_cons,
      List.filter])
    frDelivered (List.mem_singleton.mpr rfl)

/-- Modelled from the spec: the traffic-impact formula the claim states,
with a `max(speed, 1)` substitution applied to every speed value (so also to
speeds strictly between 0 and 1). -/
def specTrafficImpact (cs vs cd vd : ℚ) : ℚ :=
  10 * (cs / max vs 1 + cd / max vd 1)

/-- Counterexample to claim C3: at source speed 1/2 (with congestion 1, and
a neutral destination) the code divides by the raw speed 1/2 and yields 20,
while the claimed `max(speed, 1)` formula yields 10 — the zero-to-one
substitution does not extend to speeds strictly between 0 and 1. -/
theorem C3_counterexample :
    trafficImpactScore (.num 1) (.num (1/2)) (.num 0) (.num 1) = .num 20 ∧
    specTrafficImpact 1 (1/2) 0 1 = 10 ∧
    trafficImpactScore (.num 1) (.num (1/2)) (.num 0) (.num 1) ≠
      .num (specTrafficImpact 1 (1/2) 0 1) := by
  have h1 : trafficImpactScore (.num 1) (.num (1/2)) (.num 0) (.num 1) =
      .num 20 := by
    norm_num [trafficImpactScore]
  have h2 : specTrafficImpact 1 (1/2) 0 1 = 10 := by
    rw [specTrafficImpact, max_eq_right (by norm_num : (1/2 : ℚ) ≤ 1), max_self]
    norm_num
  refine ⟨h1, h2, ?_⟩
  rw [h1, h2]
  intro hc
  exact absurd (PVal.num.inj hc) (by norm_num)

/-- Claim C3 as amended: the traffic impact score is
`10 × (c_s/v_s' + c_d/v_d')` where a speed of exactly 0 is substituted by 1
and any other speed — including speeds strictly between 0 and 1 — is used
as-is. -/
theorem C3_amended_zero_only_substitution (cs vs cd vd : ℚ) :
    trafficImpactScore (.num cs) (.num vs) (.num cd) (.num vd) =
      .num (10 * (cs / (if vs = 0 then 1 else vs)
        + cd / (if vd = 0 then 1 else vd))) := by
  unfold trafficImpactScore
  by_cases hvs : vs = 0 <;> by_cases hvd : vd = 0 <;>
    simp [hvs, hvd, fillna0, replace01, PVal.div_num, PVal.add_num,
      PVal.mul_num, PVal.num.injEq] <;> ring

/-- Fixture: a classified, scored delivery row from city "X" to city "Y". -/
def sRowX : ScoredRow :=
  { base := { raw := { shipment_id := "SH010", source_city := "X"
                       destination_city := "Y", dispatch_time := some 0
                       expected_delivery_time := some 0
                       actual_delivery_time := some 0
                       package_weight := .num 1 }
              delay_minutes := 0, package_weight_kg := .num 1 }
    delay_class := some "On-Time"
    agent_score := some 5 }

/-- Fixture: a first traffic row for city "X". -/
def tX1 : TrafficRow :=
  { city := "X", traffic_congestion_score := .num 5, avg_speed := .num 20
    weather_warning := none }

/-- Fixture: a second traffic row for the same city "X". -/
def tX2 : TrafficRow :=
  { city := "X", traffic_congestion_score := .num 6, avg_speed := .num 25
    weather_warning := none }

/-- Counterexample to claim C4: when the source city matches two traffic
rows, the left merge fans out and the joined table has two rows for one
delivery row — the row count is not preserved "regardless of how many
traffic rows match". -/
theorem C4_counterexample :
    (merge_with_traffic [sRowX] [tX1, tX2]).length = 2 ∧
    ([sRowX] : List ScoredRow).length = 1 := by
  decide

/-- Claim C4 as amended, in two independent parts: (a) for every delivery
table and every traffic table in which each city matches at most one
traffic row, the double left join preserves the delivery row count
exactly — whether or not the delivery rows find matches; (b) with no
uniqueness bound at all, a delivery row matching no traffic row on either
side is retained with both traffic sides set to the no-value marker, never
dropped. -/
theorem C4_amended_outer_preserving :
    (∀ (ds : List ScoredRow) (tf : List TrafficRow),
      (∀ c : String, (tf.filter (fun t => t.city = c)).length ≤ 1) →
      (merge_with_traffic ds tf).length = ds.length) ∧
    (∀ (ds : List ScoredRow) (tf : List TrafficRow) (r : ScoredRow),
      r ∈ ds →
      tf.filter (fun t => t.city = r.base.raw.source_city) = [] →
      tf.filter (fun t => t.city = r.base.raw.destination_city) = [] →
      ({ scored := r, src := none, dst := none } : MergedRow) ∈
        merge_with_traffic ds tf) := by
  constructor
  · intro ds tf h1
    unfold merge_with_traffic
    rw [flatMap_length_one _ _ (fun p _ => by
        rw [List.length_map]; exact leftMatches_length tf _ (h1 _)),
      flatMap_length_one _ _ (fun q _ => by
        rw [List.length_map]; exact leftMatches_length tf _ (h1 _))]
  · intro ds tf r hr hs hd
    have hmem1 : (none : Option TrafficRow) ∈
        leftMatches tf r.base.raw.source_city := by
      unfold leftMatches; rw [hs]; exact List.mem_singleton.mpr rfl
    have hmem2 : (none : Option TrafficRow) ∈
        leftMatches tf r.base.raw.destination_city := by
      unfold leftMatches; rw [hd]; exact List.mem_singleton.mpr rfl
    exact List.mem_flatMap.mpr
      ⟨(r, none),
        List.mem_flatMap.mpr ⟨r, hr, List.mem_map.mpr ⟨none, hmem1, rfl⟩⟩,
        List.mem_map.mpr ⟨none, hmem2, rfl⟩⟩

/-- Fixture: a traffic row for city "Z", matching neither side of `sRowX`. -/
def tZ : TrafficRow :=
  { city := "Z", traffic_congestion_score := .num 3, avg_speed := .num 30
    weather_warning := none }

/-- Witness for the amended C4: part (a) on a delivery row whose source
city matches the unique traffic row (count still preserved), and part (b)
on a one-row traffic table with an unrelated city (row retained with
no-value padding on both sides). -/
theorem C4_amended_outer_preserving_witness :
    (merge_with_traffic [sRowX] [tX1]).length = ([sRowX] : List ScoredRow).length ∧
    ({ scored := sRowX, src := none, dst := none } : MergedRow) ∈
      merge_with_traffic [sRowX] [tZ] :=
  ⟨C4_amended_outer_preserving.1 [sRowX] [tX1]
      (fun _ => List.length_filter_le _ _),
    C4_amended_outer_preserving.2 [sRowX] [tZ] sRowX
      (List.mem_singleton.mpr rfl) (by decide) (by decide)⟩

/-- Projection: the feature stage leaves the merged row unchanged. -/
lemma featureRow_merged (m : MergedRow) : (featureRow m).merged = m := rfl

/-- Projection: the impact column of a feature row. -/
lemma featureRow_impact (m : MergedRow) :
    (featureRow m).traffic_impact_score =
      trafficImpactScore (sideCongestion m.src) (sideSpeed m.src)
        (sideCongestion m.dst) (sideSpeed m.dst) := rfl

/-- Projection: the risk column bins the impact column. -/
lemma featureRow_risk (m : MergedRow) :
    (featureRow m).traffic_risk_level =
      pdCut ((featureRow m).traffic_impact_score) [7, 15]
        ["Low Risk", "Moderate Risk", "High Risk"] := rfl

/-- Projection: the efficiency column of a feature row. -/
lemma featureRow_dei (m : MergedRow) :
    (featureRow m).delivery_efficiency_index =
      deliveryEfficiencyIndex m.scored.base.package_weight_kg
        m.scored.base.delay_minutes m.scored.agent_score := rfl

/-- Projection: the predicted-risk column bins the efficiency column. -/
lemma featureRow_predicted (m : MergedRow) :
    (featureRow m).predicted_delay_risk_level =
      pdCut ((featureRow m).delivery_efficiency_index) [5, 15]
        ["High Risk", "Moderate Risk", "Low Risk"] := rfl

/-- A congestion cell that is NaN or a non-negative finite value fills to a
non-negative finite value. -/
lemma fillna0_nonneg (v : PVal)
    (h : v = .nan ∨ ∃ q, v = .num q ∧ 0 ≤ q) :
    ∃ c, fillna0 v = .num c ∧ 0 ≤ c := by
  rcases h with rfl | ⟨q, rfl, hq⟩
  · exact ⟨0, rfl, le_refl 0⟩
  · exact ⟨q, rfl, hq⟩

/-- The zero-to-one substitution turns a non-negative finite speed into a
positive finite denominator. -/
lemma replace01_pos (v : ℚ) (hv : 0 ≤ v) :
    ∃ w, replace01 (.num v) = .num w ∧ 0 < w := by
  by_cases h0 : v = 0
  · subst h0; exact ⟨1, replace01_zero, one_pos⟩
  · exact ⟨v, replace01_num v h0, lt_of_le_of_ne hv (Ne.symm h0)⟩

/-- Fixture: a merged delivery row neither of whose cities matched a traffic
row. -/
def mUnmatched : MergedRow := { scored := sRowX, src := none, dst := none }

/-- Counterexample to claim C5: for a row whose cities matched no traffic
record, the unreplaced NaN speed makes `0 / NaN = NaN`, so the emitted
`traffic_impact_score` is the NaN no-value marker and `traffic_risk_level`
is the undefined NaN category — not a defined non-negative float with a
defined band. -/
theorem C5_counterexample :
    (feature_engineering [mUnmatched]).map
        (fun fr => (fr.traffic_impact_score, fr.traffic_risk_level)) =
      [(PVal.nan, none)] ∧
    mUnmatched.src = none ∧ mUnmatched.dst = none := by
  refine ⟨?_, rfl, rfl⟩
  simp [feature_engineering, featureRow, trafficImpactScore, mUnmatched]

/-- Claim C5 as amended: for every merged row whose two cities both matched
a traffic record with a finite non-negative speed and a congestion cell
that is either missing (NaN, counted as 0) or finite non-negative, the
emitted `traffic_impact_score` is a defined non-negative finite value and
`traffic_risk_level` is a defined band; rows with an unmatched side instead
carry the no-value marker in both columns. -/
theorem C5_amended_matched_defined (m : MergedRow) (ts td : TrafficRow)
    (hs : m.src = some ts) (hd : m.dst = some td)
    (vs vd : ℚ) (hvs : ts.avg_speed = .num vs) (hvd : td.avg_speed = .num vd)
    (hvs0 : 0 ≤ vs) (hvd0 : 0 ≤ vd)
    (hcs : ts.traffic_congestion_score = .nan ∨
      ∃ q, ts.traffic_congestion_score = .num q ∧ 0 ≤ q)
    (hcd : td.traffic_congestion_score = .nan ∨
      ∃ q, td.traffic_congestion_score = .num q ∧ 0 ≤ q) :
    (∃ q, (featureRow m).traffic_impact_score = .num q ∧ 0 ≤ q) ∧
    (∃ l, (featureRow m).traffic_risk_level = some l) := by
  obtain ⟨c1, hc1, hc1n⟩ := fillna0_nonneg _ hcs
  obtain ⟨c2, hc2, hc2n⟩ := fillna0_nonneg _ hcd
  obtain ⟨w1, hw1, hw1p⟩ := replace01_pos vs hvs0
  obtain ⟨w2, hw2, hw2p⟩ := replace01_pos vd hvd0
  have htis : (featureRow m).traffic_impact_score =
      .num ((c1 / w1 + c2 / w2) * 10) := by
    rw [featureRow_impact, hs, hd, sideCongestion_some, sideSpeed_some,
      sideCongestion_some, sideSpeed_some, trafficImpactScore, hvs, hvd,
      hc1, hc2, hw1, hw2, PVal.div_num _ _ (ne_of_gt hw1p),
      PVal.div_num _ _ (ne_of_gt hw2p), PVal.add_num, PVal.mul_num]
  have hq : 0 ≤ (c1 / w1 + c2 / w2) * 10 :=
    mul_nonneg
      (add_nonneg (div_nonneg hc1n (le_of_lt hw1p))
        (div_nonneg hc2n (le_of_lt hw2p)))
      (by norm_num)
  obtain ⟨l, hl⟩ := pdCut_three_some ((c1 / w1 + c2 / w2) * 10) 7 15
    "Low Risk" "Moderate Risk" "High Risk"
  exact ⟨⟨_, htis, hq⟩, ⟨l, by rw [featureRow_risk, htis]; exact hl⟩⟩

/-- Fixture: a merged row whose two cities both matched a traffic record. -/
def mMatched : MergedRow := { scored := sRowX, src := some tX1, dst := some tZ }

/-- Witness for the amended C5 on a row with both sides matched. -/
theorem C5_amended_matched_defined_witness :
    (∃ q, (featureRow mMatched).traffic_impact_score = .num q ∧ 0 ≤ q) ∧
    (∃ l, (featureRow mMatched).traffic_risk_level = some l) :=
  C5_amended_matched_defined mMatched tX1 tZ rfl rfl 20 30 rfl rfl
    (by norm_num) (by norm_num)
    (Or.inr ⟨5, rfl, by norm_num⟩) (Or.inr ⟨3, rfl, by norm_num⟩)

/-- Fixture: a delivery row delivered two minutes early (actual 0 s,
expected 120 s: delay −2). -/
def rEarly : RawDelivery :=
  { shipment_id := "SH020", source_city := "X", destination_city := "Y"
    dispatch_time := some 0, expected_delivery_time := some 120
    actual_delivery_time := some 0, package_weight := .num 1 }

/-- Counterexample to claim C6: a delivery two minutes early (delay −2, a
row the delay filter keeps) with the non-negative weight 1 gets efficiency
index `1 / (−2 + 1) × 5 = −5 < 0` — the index can be negative with
non-negative weight. -/
theorem C6_counterexample :
    deliveryEfficiencyIndex (.num 1) (-2) (some 5) = .num (-5) ∧
    agentScore (.num (-2)) = some 5 ∧
    clean_delivery_data true [rEarly] =
      [{ raw := rEarly, delay_minutes := -2, package_weight_kg := .num 1 }] ∧
    ((0 : ℚ) ≤ 1 ∧ (-5 : ℚ) < 0) := by
  refine ⟨?_, by decide, ?_, by norm_num⟩
  · rw [deliveryEfficiencyIndex, scoreCell_some,
      PVal.div_num _ _ (by norm_num : (-2 : ℚ) + 1 ≠ 0), PVal.mul_num]
    norm_num
  · norm_num [clean_delivery_data, rEarly, List.filterMap_cons]

/-- Claim C6 as amended: the efficiency index equals
`weight / (delay + 1) × score` whenever the denominator is nonzero, and it
is non-negative whenever the weight is non-negative AND the delay exceeds
−1 (for delays below −1 a positive weight makes it negative, and delay −1
is possible, giving no finite value). -/
theorem C6_amended_nonneg (w d : ℚ) (s : ℤ) (hw : 0 ≤ w) (hd : -1 < d)
    (hs : 0 ≤ s) :
    deliveryEfficiencyIndex (.num w) d (some s) = .num (w / (d + 1) * s) ∧
    0 ≤ w / (d + 1) * (s : ℚ) := by
  have hd1 : (0 : ℚ) < d + 1 := by linarith
  constructor
  · rw [deliveryEfficiencyIndex, scoreCell_some,
      PVal.div_num _ _ (ne_of_gt hd1), PVal.mul_num]
  · exact mul_nonneg (div_nonneg hw (le_of_lt hd1)) (by exact_mod_cast hs)

/-- Witness for the amended C6 at weight 1, delay 0, score 5. -/
theorem C6_amended_nonneg_witness :
    deliveryEfficiencyIndex (.num 1) 0 (some 5) =
      .num (1 / ((0 : ℚ) + 1) * (5 : ℤ)) ∧
    0 ≤ (1 : ℚ) / ((0 : ℚ) + 1) * ((5 : ℤ) : ℚ) :=
  C6_amended_nonneg 1 0 5 (by norm_num) (by norm_num) (by norm_num)

/-- Fixture: a delivery row delivered exactly one minute early (actual 0 s,
expected 60 s: delay −1). -/
def rEarlyOne : RawDelivery :=
  { shipment_id := "SH021", source_city := "X", destination_city := "Y"
    dispatch_time := some 0, expected_delivery_time := some 60
    actual_delivery_time := some 0, package_weight := .num 1 }

/-- Claim C9: a surviving row with delay exactly −1 and positive weight
produces the efficiency index `+inf` (division by the zero denominator
yields a signed infinity rather than an error), that `+inf` falls in the
open-ended top bin so the predicted risk level is "Low Risk"; the delay
filter indeed keeps a delay of −1, and its agent score is 5. -/
theorem C9_minus_one_delay (m : MergedRow) (w : ℚ) (hw : 0 < w)
    (hdm : m.scored.base.delay_minutes = -1)
    (hwt : m.scored.base.package_weight_kg = .num w)
    (hsc : m.scored.agent_score = some 5) :
    (featureRow m).delivery_efficiency_index = .pinf ∧
    (featureRow m).predicted_delay_risk_level = some "Low Risk" ∧
    agentScore (.num (-1)) = some 5 ∧
    clean_delivery_data true [rEarlyOne] =
      [{ raw := rEarlyOne, delay_minutes := -1, package_weight_kg := .num 1 }] := by
  have hdei : (featureRow m).delivery_efficiency_index = .pinf := by
    rw [featureRow_dei, hdm, hwt, hsc, deliveryEfficiencyIndex, scoreCell_some,
      show (-1 : ℚ) + 1 = 0 by norm_num, PVal.div_num_zero_pos w hw]
    exact PVal.mul_pinf_num_pos _ (by norm_num)
  refine ⟨hdei, ?_, by decide, ?_⟩
  · rw [featureRow_predicted, hdei]
    rfl
  · norm_num [clean_delivery_data, rEarlyOne, List.filterMap_cons]

/-- Fixture: the scored, merged row the pipeline builds from `rEarlyOne`
with an empty traffic table. -/
def mEarlyOne : MergedRow :=
  { scored :=
      { base := { raw := rEarlyOne, delay_minutes := -1
                  package_weight_kg := .num 1 }
        delay_class := some "On-Time"
        agent_score := some 5 }
    src := none
    dst := none }

/-- Witness for C9 at the one-minute-early row with weight 1. -/
theorem C9_minus_one_delay_witness :
    (featureRow mEarlyOne).delivery_efficiency_index = .pinf ∧
    (featureRow mEarlyOne).predicted_delay_risk_level = some "Low Risk" ∧
    agentScore (.num (-1)) = some 5 ∧
    clean_delivery_data true [rEarlyOne] =
      [{ raw := rEarlyOne, delay_minutes := -1, package_weight_kg := .num 1 }] :=
  C9_minus_one_delay mEarlyOne 1 (by norm_num) rfl rfl rfl

/-- The weight column a cleaned row carries: the raw cell when the weight
column was present, the broadcast scalar 0 when it was absent. -/
lemma clean_mem_weight (b : Bool) (rows : List RawDelivery) (c : CleanedRow)
    (hc : c ∈ clean_delivery_data b rows) :
    c.package_weight_kg = if b then c.raw.package_weight else .num 0 := by
  simp only [clean_delivery_data, List.mem_filterMap] at hc
  obtain ⟨r, _, heq⟩ := hc
  cases hA : r.actual_delivery_time with
  | none => rw [hA] at heq; simp at heq
  | some a =>
    cases hE : r.expected_delivery_time with
    | none => rw [hA, hE] at heq; simp at heq
    | some e =>
      rw [hA, hE] at heq
      simp only [Option.some.injEq] at heq
      rw [← heq]

/-- Claim C10: the weight default 0 applies only when the weight column is
absent from the table; with the column present a NaN weight cell is kept,
and such a row's efficiency index and predicted risk level are the no-value
marker while the row itself is retained (the feature stage adds columns to
every row, dropping none). -/
theorem C10_weight_default_scope (rows1 rows2 : List RawDelivery)
    (c1 c2 : CleanedRow) (h1 : c1 ∈ clean_delivery_data true rows1)
    (h2 : c2 ∈ clean_delivery_data false rows2)
    (m : MergedRow) (hwt : m.scored.base.package_weight_kg = .nan)
    (ms : List MergedRow) :
    c1.package_weight_kg = c1.raw.package_weight ∧
    c2.package_weight_kg = .num 0 ∧
    (featureRow m).delivery_efficiency_index = .nan ∧
    (featureRow m).predicted_delay_risk_level = none ∧
    (feature_engineering ms).length = ms.length := by
  have hdei : (featureRow m).delivery_efficiency_index = .nan := by
    rw [featureRow_dei, hwt, deliveryEfficiencyIndex, PVal.div_nan_left,
      PVal.mul_nan_left]
  refine ⟨?_, ?_, hdei, ?_, ?_⟩
  · have := clean_mem_weight true rows1 c1 h1
    simpa using this
  · have := clean_mem_weight false rows2 c2 h2
    simpa using this
  · rw [featureRow_predicted, hdei, pdCut_nan]
  · exact List.length_map ms featureRow

/-- Fixture: a delivery row whose weight cell is the NaN marker. -/
def rWeightNaN : RawDelivery :=
  { shipment_id := "SH030", source_city := "X", destination_city := "Y"
    dispatch_time := some 0, expected_delivery_time := some 0
    actual_delivery_time := some 0, package_weight := .nan }

/-- Fixture: the merged row built from `rWeightNaN`. -/
def mWeightNaN : MergedRow :=
  { scored :=
      { base := { raw := rWeightNaN, delay_minutes := 0
                  package_weight_kg := .nan }
        delay_class := some "On-Time"
        agent_score := some 5 }
    src := none
    dst := none }

/-- Witness for C10 on concrete rows with and without the weight column. -/
theorem C10_weight_default_scope_witness :
    ({ raw := rWeightNaN, delay_minutes := 0, package_weight_kg := .nan }
        : CleanedRow).package_weight_kg =
      ({ raw := rWeightNaN, delay_minutes := 0, package_weight_kg := .nan }
        : CleanedRow).raw.package_weight ∧
    ({ raw := rWeightNaN, delay_minutes := 0, package_weight_kg := .num 0 }
        : CleanedRow).package_weight_kg = .num 0 ∧
    (featureRow mWeightNaN).delivery_efficiency_index = .nan ∧
    (featureRow mWeightNaN).predicted_delay_risk_level = none ∧
    (feature_engineering [mWeightNaN]).length = [mWeightNaN].length :=
  C10_weight_default_scope [rWeightNaN] [rWeightNaN]
    { raw := rWeightNaN, delay_minutes := 0, package_weight_kg := .nan }
    { raw := rWeightNaN, delay_minutes := 0, package_weight_kg := .num 0 }
    (by norm_num [clean_delivery_data, rWeightNaN, List.filterMap_cons])
    (by norm_num [clean_delivery_data, rWeightNaN, List.filterMap_cons])
    mWeightNaN rfl [mWeightNaN]

end SwiftShip
